import Mathlib

/-!
Verification of the traefik-analytics plugin (analytics.go) against its
design specification.

The embedding is shallow: Go values become Lean values, the buffered channel
`dataChan` becomes a list together with its capacity, instants and durations
become integer nanoseconds, and the two goroutines (request handlers calling
`ServeHTTP`, and the single `processingWorker`) become a step function on an
explicit worker state plus a transition relation for the whole system.
Fallible operations return `Except`/`Option`; the outcomes of the external
database calls (`sql.Open`, `db.Ping`, `db.Prepare`, `stmt.Exec`) are
supplied by oracles, since the database is outside the program.
-/

namespace TraefikAnalytics

/-- Go `time.Time`: an instant, modelled as integer nanoseconds since epoch. -/
abbrev Instant := Int

/-- Go `time.Duration`: integer nanoseconds. -/
abbrev Duration := Int

/-- `Config` from analytics.go: the plugin configuration. -/
structure Config where
  DatabaseDSN : String
deriving DecidableEq

/-- `CreateConfig` from analytics.go: the default configuration. -/
def CreateConfig : Config := { DatabaseDSN := "" }

/-- `RequestData` from analytics.go: the Record, one per observed request. -/
structure RequestData where
  IP : String
  UserAgent : String
  Path : String
  Time : Instant
  Method : String
  Protocol : String
  Host : String
  AcceptLanguage : String
  Referer : String
  ContentType : String
  ContentLength : Int
  ResponseTime : Duration
deriving DecidableEq

/-- The parts of Go's `http.Request` that `ServeHTTP` reads. Header lookups
(`req.UserAgent()`, `req.Referer()`, `req.Header.Get`) are modelled by the
`headerGet` function; a missing header is the empty string, as in Go. -/
structure Request where
  RemoteAddr : String
  URLPath : String
  Method : String
  Proto : String
  Host : String
  headerGet : String → String
  ContentLength : Int

/-- What the downstream handler wrote to the `http.ResponseWriter`. The
plugin never touches the writer itself, so the response is whatever the
downstream handler produced. -/
structure Response where
  status : Nat
  body : List String
deriving DecidableEq

/-- Non-blocking send on a buffered channel of capacity `cap`: Go's
`select { case ch <- data: default: }`. Returns the new buffer and whether
the value was accepted. -/
def trySend (cap : Nat) (buf : List RequestData) (d : RequestData) :
    List RequestData × Bool :=
  if buf.length < cap then (buf ++ [d], true) else (buf, false)

/-- Receive from a buffered channel: the oldest element, if any. -/
def recvChan (buf : List RequestData) : Option (RequestData × List RequestData) :=
  match buf with
  | [] => none
  | d :: rest => some (d, rest)

/-- The operational-log line emitted when the channel is full. -/
def chanFullMsg : String := "Analytics channel full, discarding data"

/-- Observable effects of one `ServeHTTP` invocation, in order. -/
inductive Event where
  | nextCall (req : Request)
  | logLine (msg : String)
  | sinkWrite (d : RequestData)

/-- Whether an event is an invocation of the downstream handler. -/
def Event.isNextCall : Event → Bool
  | Event.nextCall _ => true
  | _ => false

/-- Whether an event is a write to the durable sink. -/
def Event.isSinkWrite : Event → Bool
  | Event.sinkWrite _ => true
  | _ => false

/-- Whether an event is the queue-full log line. -/
def Event.isQueueFullLog : Event → Bool
  | Event.logLine m => m == chanFullMsg
  | _ => false

/-- Result of one `ServeHTTP` invocation. -/
structure ServeResult where
  response : Response
  buf : List RequestData
  record : RequestData
  events : List Event

/-- `Analytics.ServeHTTP` from analytics.go. `t0` is the wall clock at entry
(`start := time.Now()`), `dNext` the wall time consumed by the downstream
handler `a.next.ServeHTTP`, and `dBuild` the further time that passes before
`time.Since(start)` is evaluated in the struct literal. The record is built
after the downstream call returns, then offered to the channel with a
non-blocking select. -/
def ServeHTTP (next : Request → Response) (t0 : Instant) (dNext dBuild : Nat)
    (cap : Nat) (buf : List RequestData) (req : Request) : ServeResult :=
  let start := t0
  let resp := next req
  let data : RequestData :=
    { IP := req.RemoteAddr
      UserAgent := req.headerGet "User-Agent"
      Path := req.URLPath
      Time := start
      Method := req.Method
      Protocol := req.Proto
      Host := req.Host
      AcceptLanguage := req.headerGet "Accept-Language"
      Referer := req.headerGet "Referer"
      ContentType := req.headerGet "Content-Type"
      ContentLength := req.ContentLength
      ResponseTime := (t0 + (dNext : Int) + (dBuild : Int)) - start }
  let sent := trySend cap buf data
  { response := resp
    buf := sent.1
    record := data
    events := [Event.nextCall req] ++
      (if sent.2 then [] else [Event.logLine chanFullMsg]) }

/-- One row of the `request_logs` table: the twelve value columns, in the
order of the INSERT column list in `runWorker`. -/
structure Row where
  ip : String
  user_agent : String
  path : String
  request_time : Instant
  method : String
  protocol : String
  host : String
  accept_language : String
  referer : String
  content_type : String
  content_length : Int
  response_time : Duration
deriving DecidableEq

/-- The positional arguments `$1 .. $12` that `stmt.Exec` passes for one
record in `runWorker`'s drain loop. -/
def writeRow (d : RequestData) : Row :=
  { ip := d.IP
    user_agent := d.UserAgent
    path := d.Path
    request_time := d.Time
    method := d.Method
    protocol := d.Protocol
    host := d.Host
    accept_language := d.AcceptLanguage
    referer := d.Referer
    content_type := d.ContentType
    content_length := d.ContentLength
    response_time := d.ResponseTime }

/-- The phases of the Ingestion Worker's loop: `connecting` is the top of a
`runWorker` call (`sql.Open` / `db.Ping` / `db.Prepare`), `draining` is the
`for data := range a.dataChan` loop, and `backoff` is `processingWorker`'s
`time.Sleep(5 * time.Second)` after `runWorker` returned an error. -/
inductive Phase where
  | connecting
  | draining
  | backoff
deriving DecidableEq

/-- Classification of a `stmt.Exec` failure: a row-level failure (constraint
violation, malformed value) or a connectivity-class failure (the underlying
connection is lost). The class is carried by the oracle so that theorems can
quantify over it; the code itself never inspects it. -/
inductive ErrClass where
  | rowLevel
  | connectivity
deriving DecidableEq

/-- An error returned by `stmt.Exec`. -/
structure WriteErr where
  cls : ErrClass
  msg : String
deriving DecidableEq

/-- Outcome of the connection-establishment phase of `runWorker`: which of
`sql.Open`, `db.Ping`, `db.Prepare` failed, or none of them. -/
inductive ConnectOutcome where
  | openFail (msg : String)
  | pingFail (msg : String)
  | prepareFail (msg : String)
  | connected
deriving DecidableEq

/-- Whether a connection-establishment outcome is a failure. -/
def isFailOutcome : ConnectOutcome → Bool
  | ConnectOutcome.connected => false
  | _ => true

/-- The state shared by the request handlers and the Ingestion Worker:
the channel (`buf`, its capacity `cap`, and whether it has been closed) and
the worker's phase together with its observable history (rows written to the
sink, log lines, seconds slept in backoff, connection attempts made, and
whether a database connection is currently open). -/
structure WState where
  phase : Phase
  buf : List RequestData
  cap : Nat
  closed : Bool
  connOpen : Bool
  sink : List Row
  logs : List String
  sleptSeconds : Nat
  attempts : Nat
deriving DecidableEq

/-- The oracle input consumed by one worker step: the outcome of the
connection attempt when connecting, or of `stmt.Exec` when draining. -/
inductive WorkerIn where
  | connectRes (o : ConnectOutcome)
  | writeRes (r : Option WriteErr)
deriving DecidableEq

/-- `processingWorker`'s log line for a `runWorker` error. -/
def workerErrMsg (m : String) : String := "Worker encountered an error: " ++ m

/-- `runWorker`'s error for a failed `sql.Open`. -/
def openErrMsg (m : String) : String := "failed to connect to database: " ++ m

/-- `runWorker`'s error for a failed `db.Ping`. -/
def pingErrMsg (m : String) : String := "failed to ping database: " ++ m

/-- `runWorker`'s error for a failed `db.Prepare`. -/
def prepareErrMsg (m : String) : String := "failed to prepare statement: " ++ m

/-- The drain loop's log line for a failed `stmt.Exec`. -/
def insertErrMsg (m : String) : String := "Failed to insert data: " ++ m

/-- `time.Sleep(5 * time.Second)` in `processingWorker`. -/
def retryDelaySeconds : Nat := 5

/-- One step of the Ingestion Worker, a small-step reading of
`processingWorker` and `runWorker`:
in `connecting`, a failure of `sql.Open` / `db.Ping` / `db.Prepare` makes
`runWorker` return an error, which `processingWorker` logs before sleeping
(phase `backoff`); success enters the drain loop with the connection open.
In `backoff`, the worker sleeps 5 seconds and retries (`for` loop).
In `draining`, the worker receives the oldest buffered record and runs
`stmt.Exec` on it; on success the row is appended to the sink, on any error
the loop logs `Failed to insert data` and continues; with an empty open
channel the receive blocks (the state stutters); with an empty closed
channel the range loop ends, `runWorker` returns nil, the deferred closes
run, and `processingWorker` loops back to `runWorker`. -/
def workerStep (s : WState) (i : WorkerIn) : WState :=
  match s.phase, i with
  | Phase.connecting, WorkerIn.connectRes o =>
    match o with
    | ConnectOutcome.connected =>
        { s with phase := Phase.draining, connOpen := true,
                 attempts := s.attempts + 1 }
    | ConnectOutcome.openFail m =>
        { s with phase := Phase.backoff, attempts := s.attempts + 1,
                 logs := s.logs ++ [workerErrMsg (openErrMsg m)] }
    | ConnectOutcome.pingFail m =>
        { s with phase := Phase.backoff, attempts := s.attempts + 1,
                 logs := s.logs ++ [workerErrMsg (pingErrMsg m)] }
    | ConnectOutcome.prepareFail m =>
        { s with phase := Phase.backoff, attempts := s.attempts + 1,
                 logs := s.logs ++ [workerErrMsg (prepareErrMsg m)] }
  | Phase.backoff, _ =>
      { s with phase := Phase.connecting,
               sleptSeconds := s.sleptSeconds + retryDelaySeconds }
  | Phase.draining, WorkerIn.writeRes r =>
    match s.buf with
    | [] =>
        if s.closed then { s with phase := Phase.connecting, connOpen := false }
        else s
    | d :: rest =>
      match r with
      | none => { s with buf := rest, sink := s.sink ++ [writeRow d] }
      | some e => { s with buf := rest, logs := s.logs ++ [insertErrMsg e.msg] }
  | _, _ => s

/-- Iterating worker steps over a list of oracle inputs. -/
def workerRun (s : WState) (l : List WorkerIn) : WState :=
  l.foldl workerStep s

/-- The oracle inputs for a run of consecutive connection failures: each
failed outcome is one connecting step followed by one backoff step (the
second input is ignored by the backoff phase). -/
def failTrace : List ConnectOutcome → List WorkerIn
  | [] => []
  | o :: os => WorkerIn.connectRes o :: WorkerIn.connectRes o :: failTrace os

/-- The drain loop of `runWorker` over the sequence of records it receives:
`for data := range a.dataChan { _, err := stmt.Exec(...); if err != nil {
log.Printf("Failed to insert data: %v", err) } }`. `res` is the oracle for
`stmt.Exec`'s outcome on each record. -/
def drainList (res : RequestData → Option WriteErr) (sink : List Row)
    (logs : List String) : List RequestData → List Row × List String
  | [] => (sink, logs)
  | d :: rest =>
    match res d with
    | none => drainList res (sink ++ [writeRow d]) logs rest
    | some e => drainList res sink (logs ++ [insertErrMsg e.msg]) rest

/-- The worker state as `New` creates it: channel
`make(chan RequestData, 1000)`, worker about to run `runWorker` for the
first time. -/
def initWorker : WState :=
  { phase := Phase.connecting, buf := [], cap := 1000, closed := false,
    connOpen := false, sink := [], logs := [], sleptSeconds := 0, attempts := 0 }

/-- The plugin instance `New` returns: the `Analytics` struct together with
the state of the worker goroutine it started. -/
structure Analytics where
  name : String
  config : Config
  worker : WState

/-- `New` from analytics.go: refuses an empty `DatabaseDSN`, otherwise
builds the instance with its buffered channel of capacity 1000 and starts
the processing worker. -/
def New (config : Config) (name : String) : Except String Analytics :=
  if config.DatabaseDSN = "" then Except.error "DatabaseDSN is required"
  else Except.ok { name := name, config := config, worker := initWorker }

/-- Every transition the program applies to the shared state: one worker
step with some oracle input, or one request arrival running `ServeHTTP`
(which touches the shared state only through the non-blocking send). No
constructor closes the channel: no `close(a.dataChan)` appears anywhere in
the source. -/
inductive SysStep : WState → WState → Prop where
  | worker (s : WState) (i : WorkerIn) : SysStep s (workerStep s i)
  | arrive (s : WState) (next : Request → Response) (t0 : Instant)
      (dNext dBuild : Nat) (req : Request) :
      SysStep s { s with buf := (ServeHTTP next t0 dNext dBuild s.cap s.buf req).buf }

/-- States reachable from the initial state built by `New`. -/
inductive Reach : WState → Prop where
  | init : Reach initWorker
  | step (s s' : WState) : Reach s → SysStep s s' → Reach s'

/-- Claim C1: on every `ServeHTTP` invocation the enqueue attempt never
blocks: with free capacity the record is appended to the queue and no
queue-full line is logged; with the queue at capacity the record is dropped,
the queue is unchanged, exactly one queue-full log event is emitted; in both
cases the request completes with the downstream handler's response. -/
theorem c1_enqueue_never_blocks (next : Request → Response) (t0 : Instant)
    (dNext dBuild cap : Nat) (buf : List RequestData) (req : Request) :
    (buf.length < cap →
      (ServeHTTP next t0 dNext dBuild cap buf req).buf
        = buf ++ [(ServeHTTP next t0 dNext dBuild cap buf req).record] ∧
      (ServeHTTP next t0 dNext dBuild cap buf req).events.filter
        Event.isQueueFullLog = []) ∧
    (cap ≤ buf.length →
      (ServeHTTP next t0 dNext dBuild cap buf req).buf = buf ∧
      (ServeHTTP next t0 dNext dBuild cap buf req).events.filter
        Event.isQueueFullLog = [Event.logLine chanFullMsg]) ∧
    (ServeHTTP next t0 dNext dBuild cap buf req).response = next req := by
  refine ⟨fun h => ?_, fun h => ?_, ?_⟩
  · simp [ServeHTTP, trySend, h, Event.isQueueFullLog]
  · have h' : ¬ buf.length < cap := by omega
    simp [ServeHTTP, trySend, h', Event.isQueueFullLog, chanFullMsg]
  · simp [ServeHTTP]

/-- Claim C6: the record's observed time is the clock value captured before
the downstream handler runs, its duration is the elapsed time from that
instant until after the handler returned (hence non-negative and at least
the handler's own time), and all twelve fields are populated from the
request before the record is offered to the queue. -/
theorem c6_record_timing_and_population (next : Request → Response)
    (t0 : Instant) (dNext dBuild cap : Nat) (buf : List RequestData)
    (req : Request) :
    (ServeHTTP next t0 dNext dBuild cap buf req).record.Time = t0 ∧
    (ServeHTTP next t0 dNext dBuild cap buf req).record.ResponseTime
      = (dNext : Int) + (dBuild : Int) ∧
    0 ≤ (ServeHTTP next t0 dNext dBuild cap buf req).record.ResponseTime ∧
    (dNext : Int)
      ≤ (ServeHTTP next t0 dNext dBuild cap buf req).record.ResponseTime ∧
    (ServeHTTP next t0 dNext dBuild cap buf req).record.IP = req.RemoteAddr ∧
    (ServeHTTP next t0 dNext dBuild cap buf req).record.UserAgent
      = req.headerGet "User-Agent" ∧
    (ServeHTTP next t0 dNext dBuild cap buf req).record.Path = req.URLPath ∧
    (ServeHTTP next t0 dNext dBuild cap buf req).record.Method = req.Method ∧
    (ServeHTTP next t0 dNext dBuild cap buf req).record.Protocol = req.Proto ∧
    (ServeHTTP next t0 dNext dBuild cap buf req).record.Host = req.Host ∧
    (ServeHTTP next t0 dNext dBuild cap buf req).record.AcceptLanguage
      = req.headerGet "Accept-Language" ∧
    (ServeHTTP next t0 dNext dBuild cap buf req).record.Referer
      = req.headerGet "Referer" ∧
    (ServeHTTP next t0 dNext dBuild cap buf req).record.ContentType
      = req.headerGet "Content-Type" ∧
    (ServeHTTP next t0 dNext dBuild cap buf req).record.ContentLength
      = req.ContentLength ∧
    (buf.length < cap →
      (ServeHTTP next t0 dNext dBuild cap buf req).buf
        = buf ++ [(ServeHTTP next t0 dNext dBuild cap buf req).record]) := by
  refine ⟨?_, ?_, ?_, ?_, ?_, ?_, ?_, ?_, ?_, ?_, ?_, ?_, ?_, ?_, fun h => ?_⟩
    <;> simp [ServeHTTP, trySend]
  · ring
  · linarith [Int.ofNat_nonneg dNext, Int.ofNat_nonneg dBuild]
  · linarith [Int.ofNat_nonneg dBuild]
  · simp [h]

/-- Claim C7: every `ServeHTTP` invocation calls the downstream handler
exactly once with the unmodified request, forwards its response unchanged,
and performs no storage write on the request path. -/
theorem c7_passthrough_no_storage (next : Request → Response) (t0 : Instant)
    (dNext dBuild cap : Nat) (buf : List RequestData) (req : Request) :
    (ServeHTTP next t0 dNext dBuild cap buf req).events.filter
      Event.isNextCall = [Event.nextCall req] ∧
    (ServeHTTP next t0 dNext dBuild cap buf req).response = next req ∧
    (ServeHTTP next t0 dNext dBuild cap buf req).events.filter
      Event.isSinkWrite = [] := by
  by_cases h : buf.length < cap <;>
    simp [ServeHTTP, trySend, h, Event.isNextCall, Event.isSinkWrite]

/-- Claim C9: `New` fails exactly when `DatabaseDSN` is empty; with a
non-empty DSN it returns the plugin instance whose worker goroutine starts
in the Connecting phase with the capacity-1000 channel. -/
theorem c9_construction_gate (cfg : Config) (nm : String) :
    (cfg.DatabaseDSN = "" → New cfg nm = Except.error "DatabaseDSN is required") ∧
    (cfg.DatabaseDSN ≠ "" → New cfg nm =
      Except.ok { name := nm, config := cfg, worker := initWorker }) ∧
    initWorker.phase = Phase.connecting ∧
    initWorker.cap = 1000 := by
  refine ⟨fun h => ?_, fun h => ?_, rfl, rfl⟩
  · simp [New, h]
  · simp [New, h]

/-- A concrete record, as built from a synthetic request. -/
def sampleRecord : RequestData :=
  { IP := "203.0.113.7:51812", UserAgent := "curl/8.0", Path := "/health",
    Time := 0, Method := "GET", Protocol := "HTTP/1.1", Host := "example.com",
    AcceptLanguage := "", Referer := "", ContentType := "",
    ContentLength := -1, ResponseTime := 12000000 }

/-- A concrete worker state in the middle of draining: connection open, one
record buffered. -/
def sampleDrainState : WState :=
  { initWorker with
    phase := Phase.draining
    connOpen := true
    buf := [sampleRecord] }

/-- A concrete connectivity-class write error. -/
def connLostErr : WriteErr :=
  { cls := ErrClass.connectivity, msg := "read tcp: connection reset by peer" }

/-- A concrete row-level write error. -/
def rowErr : WriteErr :=
  { cls := ErrClass.rowLevel,
    msg := "null value in column violates not-null constraint" }

/-- A sample valid configuration and the instance `New` builds from it. -/
def sampleConfig : Config := { DatabaseDSN := "postgres://localhost/analytics" }

/-- The plugin instance `New sampleConfig` returns. -/
def sampleAnalytics : Analytics :=
  { name := "analytics", config := sampleConfig, worker := initWorker }

/-- The drain loop writes the successful records, in order, and logs one
line per failed record, touching nothing else. -/
theorem drainList_spec (res : RequestData → Option WriteErr)
    (l : List RequestData) : ∀ (sink : List Row) (logs : List String),
    (drainList res sink logs l).1
      = sink ++ (l.filter (fun d => (res d).isNone)).map writeRow ∧
    (drainList res sink logs l).2
      = logs ++ l.filterMap (fun d => (res d).map (fun e => insertErrMsg e.msg)) := by
  induction l with
  | nil => intro sink logs; simp [drainList]
  | cons d rest ih =>
    intro sink logs
    cases hr : res d with
    | none => simp [drainList, hr, ih]
    | some e => simp [drainList, hr, ih]

/-- Claim C8: a successful write during draining appends exactly one row to
the sink, and its twelve columns equal the corresponding record fields, in
the INSERT's column order. -/
theorem c8_write_one_matching_row (s : WState) (d : RequestData)
    (rest : List RequestData) (hph : s.phase = Phase.draining)
    (hbuf : s.buf = d :: rest) :
    (workerStep s (WorkerIn.writeRes none)).sink = s.sink ++ [writeRow d] ∧
    (workerStep s (WorkerIn.writeRes none)).buf = rest ∧
    (writeRow d).ip = d.IP ∧
    (writeRow d).user_agent = d.UserAgent ∧
    (writeRow d).path = d.Path ∧
    (writeRow d).request_time = d.Time ∧
    (writeRow d).method = d.Method ∧
    (writeRow d).protocol = d.Protocol ∧
    (writeRow d).host = d.Host ∧
    (writeRow d).accept_language = d.AcceptLanguage ∧
    (writeRow d).referer = d.Referer ∧
    (writeRow d).content_type = d.ContentType ∧
    (writeRow d).content_length = d.ContentLength ∧
    (writeRow d).response_time = d.ResponseTime := by
  obtain ⟨ph, bf, cp, cl, co, sk, lg, sl, att⟩ := s
  dsimp only at hph hbuf
  subst hph; subst hbuf
  exact ⟨rfl, rfl, rfl, rfl, rfl, rfl, rfl, rfl, rfl, rfl, rfl, rfl, rfl, rfl⟩

/-- Witness for C8 at a concrete draining state and record. -/
theorem c8_write_one_matching_row_witness :
    (workerStep sampleDrainState (WorkerIn.writeRes none)).sink
      = sampleDrainState.sink ++ [writeRow sampleRecord] ∧
    (workerStep sampleDrainState (WorkerIn.writeRes none)).buf = [] ∧
    (writeRow sampleRecord).ip = sampleRecord.IP ∧
    (writeRow sampleRecord).user_agent = sampleRecord.UserAgent ∧
    (writeRow sampleRecord).path = sampleRecord.Path ∧
    (writeRow sampleRecord).request_time = sampleRecord.Time ∧
    (writeRow sampleRecord).method = sampleRecord.Method ∧
    (writeRow sampleRecord).protocol = sampleRecord.Protocol ∧
    (writeRow sampleRecord).host = sampleRecord.Host ∧
    (writeRow sampleRecord).accept_language = sampleRecord.AcceptLanguage ∧
    (writeRow sampleRecord).referer = sampleRecord.Referer ∧
    (writeRow sampleRecord).content_type = sampleRecord.ContentType ∧
    (writeRow sampleRecord).content_length = sampleRecord.ContentLength ∧
    (writeRow sampleRecord).response_time = sampleRecord.ResponseTime :=
  c8_write_one_matching_row sampleDrainState sampleRecord [] rfl rfl

/-- Counterexample to claim C2 as stated: at a concrete draining state, a
write that fails with a connectivity-class error does not send the worker to
Backoff, and the connection stays open. -/
theorem c2_counterexample :
    (workerStep sampleDrainState (WorkerIn.writeRes (some connLostErr))).phase
      ≠ Phase.backoff ∧
    (workerStep sampleDrainState (WorkerIn.writeRes (some connLostErr))).connOpen
      = true := by
  exact ⟨by decide, rfl⟩

/-- Claim C2 (amended): during draining, a failing write of either class --
connectivity-class included -- is only logged and the record skipped; the
worker remains in Draining with the connection open, and never closes the
connector or moves to Backoff in response to a write error. -/
theorem c2_amended_write_failure_keeps_draining (s : WState) (d : RequestData)
    (rest : List RequestData) (e : WriteErr)
    (hph : s.phase = Phase.draining) (hbuf : s.buf = d :: rest) :
    workerStep s (WorkerIn.writeRes (some e))
      = { s with buf := rest, logs := s.logs ++ [insertErrMsg e.msg] } := by
  obtain ⟨ph, bf, cp, cl, co, sk, lg, sl, att⟩ := s
  dsimp only at hph hbuf
  subst hph; subst hbuf
  rfl

/-- Witness for the amended C2, at a connectivity-class error. -/
theorem c2_amended_witness :
    workerStep sampleDrainState (WorkerIn.writeRes (some connLostErr))
      = { sampleDrainState with
          buf := []
          logs := sampleDrainState.logs ++ [insertErrMsg connLostErr.msg] } :=
  c2_amended_write_failure_keeps_draining sampleDrainState sampleRecord []
    connLostErr rfl rfl

/-- Claim C4: a failing write during draining is logged, the record is
skipped (removed from the queue, written nowhere, never retried), the worker
keeps the same connection and stays in Draining; and the drain loop goes on
to process every subsequent received record, writing the successful ones in
order and logging one line per failure. -/
theorem c4_row_failure_skips_and_continues (s : WState) (d : RequestData)
    (rest : List RequestData) (e : WriteErr)
    (res : RequestData → Option WriteErr) (sink : List Row)
    (logs : List String) (l : List RequestData)
    (hph : s.phase = Phase.draining) (hbuf : s.buf = d :: rest) :
    (workerStep s (WorkerIn.writeRes (some e))).phase = Phase.draining ∧
    (workerStep s (WorkerIn.writeRes (some e))).connOpen = s.connOpen ∧
    (workerStep s (WorkerIn.writeRes (some e))).buf = rest ∧
    (workerStep s (WorkerIn.writeRes (some e))).sink = s.sink ∧
    (workerStep s (WorkerIn.writeRes (some e))).logs
      = s.logs ++ [insertErrMsg e.msg] ∧
    (drainList res sink logs l).1
      = sink ++ (l.filter (fun d2 => (res d2).isNone)).map writeRow ∧
    (drainList res sink logs l).2
      = logs ++ l.filterMap (fun d2 => (res d2).map (fun e2 => insertErrMsg e2.msg)) := by
  obtain ⟨h1, h2⟩ := drainList_spec res l sink logs
  obtain ⟨ph, bf, cp, cl, co, sk, lg, sl, att⟩ := s
  dsimp only at hph hbuf
  subst hph; subst hbuf
  exact ⟨rfl, rfl, rfl, rfl, rfl, h1, h2⟩

/-- Witness for C4 at a concrete draining state and row-level error. -/
theorem c4_row_failure_skips_and_continues_witness :
    (workerStep sampleDrainState (WorkerIn.writeRes (some rowErr))).phase
      = Phase.draining ∧
    (workerStep sampleDrainState (WorkerIn.writeRes (some rowErr))).connOpen
      = sampleDrainState.connOpen ∧
    (workerStep sampleDrainState (WorkerIn.writeRes (some rowErr))).buf = [] ∧
    (workerStep sampleDrainState (WorkerIn.writeRes (some rowErr))).sink
      = sampleDrainState.sink ∧
    (workerStep sampleDrainState (WorkerIn.writeRes (some rowErr))).logs
      = sampleDrainState.logs ++ [insertErrMsg rowErr.msg] ∧
    (drainList (fun _ => none) [] [] [sampleRecord]).1
      = [] ++ ([sampleRecord].filter
          (fun d2 => ((fun _ => (none : Option WriteErr)) d2).isNone)).map writeRow ∧
    (drainList (fun _ => none) [] [] [sampleRecord]).2
      = [] ++ [sampleRecord].filterMap
          (fun d2 => ((fun _ => (none : Option WriteErr)) d2).map
            (fun e2 => insertErrMsg e2.msg)) :=
  c4_row_failure_skips_and_continues sampleDrainState sampleRecord [] rowErr
    (fun _ => none) [] [] [sampleRecord] rfl rfl

/-- Claim C5: the queue `New` constructs has capacity 1000; `try_enqueue`
accepts and appends exactly when fewer than 1000 items are held, returns
false leaving the queue unchanged when 1000 are held, and `dequeue` removes
and returns the oldest item; content is fully determined by these append/
pop-head equations, so items are never reordered or duplicated. -/
theorem c5_bounded_fifo_queue (cfg : Config) (nm : String) (a : Analytics)
    (h : New cfg nm = Except.ok a) (q : List RequestData) (d : RequestData)
    (rest : List RequestData) :
    a.worker.cap = 1000 ∧
    ((trySend a.worker.cap q d).2 = true ↔ q.length < 1000) ∧
    (q.length < 1000 → trySend a.worker.cap q d = (q ++ [d], true)) ∧
    (1000 ≤ q.length → trySend a.worker.cap q d = (q, false)) ∧
    recvChan (d :: rest) = some (d, rest) ∧
    recvChan ([] : List RequestData) = none := by
  have hw : a.worker = initWorker := by
    unfold New at h
    split at h
    · exact absurd h (by simp)
    · cases h; rfl
  rw [hw]
  refine ⟨rfl, ?_, fun hl => ?_, fun hl => ?_, rfl, rfl⟩
  · by_cases hq : q.length < 1000 <;> simp [trySend, initWorker, hq]
  · simp [trySend, initWorker, hl]
  · have h' : ¬ q.length < 1000 := by omega
    simp [trySend, initWorker, h']

/-- Witness for C5 at the sample configuration and an empty queue. -/
theorem c5_bounded_fifo_queue_witness :
    sampleAnalytics.worker.cap = 1000 ∧
    ((trySend sampleAnalytics.worker.cap [] sampleRecord).2 = true
      ↔ ([] : List RequestData).length < 1000) ∧
    (([] : List RequestData).length < 1000 →
      trySend sampleAnalytics.worker.cap [] sampleRecord
        = ([] ++ [sampleRecord], true)) ∧
    (1000 ≤ ([] : List RequestData).length →
      trySend sampleAnalytics.worker.cap [] sampleRecord = ([], false)) ∧
    recvChan [sampleRecord] = some (sampleRecord, []) ∧
    recvChan ([] : List RequestData) = none :=
  c5_bounded_fifo_queue sampleConfig "analytics" sampleAnalytics rfl []
    sampleRecord []

/-- The log line `processingWorker` emits for a failed connection attempt,
by failing stage. -/
def connectFailMsg : ConnectOutcome → String
  | ConnectOutcome.openFail m => workerErrMsg (openErrMsg m)
  | ConnectOutcome.pingFail m => workerErrMsg (pingErrMsg m)
  | ConnectOutcome.prepareFail m => workerErrMsg (prepareErrMsg m)
  | ConnectOutcome.connected => ""

/-- A failing connection attempt makes `runWorker` return the wrapped error:
`processingWorker` logs it and heads for the sleep. -/
theorem workerStep_connect_fail (s : WState) (o : ConnectOutcome)
    (hph : s.phase = Phase.connecting) (ho : isFailOutcome o = true) :
    workerStep s (WorkerIn.connectRes o)
      = { s with
          phase := Phase.backoff
          attempts := s.attempts + 1
          logs := s.logs ++ [connectFailMsg o] } := by
  obtain ⟨ph, bf, cp, cl, co, sk, lg, sl, att⟩ := s
  dsimp only at hph
  subst hph
  cases o with
  | connected => simp [isFailOutcome] at ho
  | openFail m => rfl
  | pingFail m => rfl
  | prepareFail m => rfl

/-- In backoff the worker sleeps the fixed 5 seconds and loops back to
connecting, whatever the next oracle input is. -/
theorem workerStep_backoff_step (s : WState) (i : WorkerIn)
    (hph : s.phase = Phase.backoff) :
    workerStep s i
      = { s with
          phase := Phase.connecting
          sleptSeconds := s.sleptSeconds + retryDelaySeconds } := by
  obtain ⟨ph, bf, cp, cl, co, sk, lg, sl, att⟩ := s
  dsimp only at hph
  subst hph
  cases i <;> rfl

/-- Claim C3: K consecutive connection failures (any mix of open, liveness
and prepare failures) each get logged and followed by the fixed 5-second
sleep; afterwards the worker is back in Connecting having attempted the
connection K more times and slept 5 K more seconds, with the queue and sink
untouched -- the loop never terminates. -/
theorem c3_connect_failure_backoff_loop (s : WState)
    (os : List ConnectOutcome) (hph : s.phase = Phase.connecting)
    (hfail : ∀ o ∈ os, isFailOutcome o = true) :
    (workerRun s (failTrace os)).phase = Phase.connecting ∧
    (workerRun s (failTrace os)).attempts = s.attempts + os.length ∧
    (workerRun s (failTrace os)).sleptSeconds
      = s.sleptSeconds + retryDelaySeconds * os.length ∧
    (workerRun s (failTrace os)).logs.length = s.logs.length + os.length ∧
    (workerRun s (failTrace os)).buf = s.buf ∧
    (workerRun s (failTrace os)).sink = s.sink := by
  induction os generalizing s with
  | nil => simpa [failTrace, workerRun] using hph
  | cons o os ih =>
    have ho : isFailOutcome o = true := hfail o (by simp)
    have hrest : ∀ o2 ∈ os, isFailOutcome o2 = true :=
      fun o2 h2 => hfail o2 (by simp [h2])
    have e1 := workerStep_connect_fail s o hph ho
    have key : workerRun s (failTrace (o :: os))
        = workerRun
            { s with
              phase := Phase.connecting
              attempts := s.attempts + 1
              logs := s.logs ++ [connectFailMsg o]
              sleptSeconds := s.sleptSeconds + retryDelaySeconds }
            (failTrace os) := by
      show workerRun
        (workerStep (workerStep s (WorkerIn.connectRes o))
          (WorkerIn.connectRes o)) (failTrace os) = _
      rw [e1, workerStep_backoff_step _ (WorkerIn.connectRes o) rfl]
    obtain ⟨i1, i2, i3, i4, i5, i6⟩ := ih
      { s with
        phase := Phase.connecting
        attempts := s.attempts + 1
        logs := s.logs ++ [connectFailMsg o]
        sleptSeconds := s.sleptSeconds + retryDelaySeconds } rfl hrest
    rw [key]
    refine ⟨i1, ?_, ?_, ?_, i5, i6⟩
    · rw [i2]; dsimp only; simp [List.length_cons]; omega
    · rw [i3]; dsimp only; simp [List.length_cons, retryDelaySeconds]; omega
    · rw [i4]; dsimp only; simp [List.length_append, List.length_cons]; omega

/-- A concrete storage outage: two consecutive connection failures. -/
def sampleOutage : List ConnectOutcome :=
  [ConnectOutcome.openFail "dial tcp 127.0.0.1:5432: connection refused",
   ConnectOutcome.pingFail "i/o timeout"]

/-- Witness for C3 at the initial worker state and a concrete outage. -/
theorem c3_connect_failure_backoff_loop_witness :
    (workerRun initWorker (failTrace sampleOutage)).phase = Phase.connecting ∧
    (workerRun initWorker (failTrace sampleOutage)).attempts
      = initWorker.attempts + sampleOutage.length ∧
    (workerRun initWorker (failTrace sampleOutage)).sleptSeconds
      = initWorker.sleptSeconds + retryDelaySeconds * sampleOutage.length ∧
    (workerRun initWorker (failTrace sampleOutage)).logs.length
      = initWorker.logs.length + sampleOutage.length ∧
    (workerRun initWorker (failTrace sampleOutage)).buf = initWorker.buf ∧
    (workerRun initWorker (failTrace sampleOutage)).sink = initWorker.sink :=
  c3_connect_failure_backoff_loop initWorker sampleOutage rfl (by decide)

/-- No worker step closes the channel. -/
theorem workerStep_preserves_closed (s : WState) (i : WorkerIn) :
    (workerStep s i).closed = s.closed := by
  obtain ⟨ph, bf, cp, cl, co, sk, lg, sl, att⟩ := s
  cases ph with
  | connecting =>
    cases i with
    | connectRes o => cases o <;> rfl
    | writeRes r => rfl
  | backoff => cases i <;> rfl
  | draining =>
    cases i with
    | connectRes o => rfl
    | writeRes r =>
      cases bf with
      | nil => cases cl <;> rfl
      | cons d rest => cases r <;> rfl

/-- The channel is never closed: `close(a.dataChan)` appears nowhere, so
every reachable state has the channel open. -/
theorem reach_not_closed (s : WState) (h : Reach s) : s.closed = false := by
  induction h with
  | init => rfl
  | step s s' hr hstep ih =>
    cases hstep with
    | worker i => rw [workerStep_preserves_closed]; exact ih
    | arrive next t0 dNext dBuild req => exact ih

/-- Claim C10: from any reachable state in the Draining phase, no program
transition leaves Draining: the channel is never closed, so the range loop's
normal exit (and `runWorker`'s nil return) is unreachable and the worker
never re-enters Connecting from Draining. -/
theorem c10_draining_never_reconnects (s s' : WState) (hr : Reach s)
    (hph : s.phase = Phase.draining) (hstep : SysStep s s') :
    s'.phase = Phase.draining ∧ s.closed = false := by
  have hc := reach_not_closed s hr
  refine ⟨?_, hc⟩
  cases hstep with
  | worker i =>
    obtain ⟨ph, bf, cp, cl, co, sk, lg, sl, att⟩ := s
    dsimp only at hph hc
    subst hph
    subst hc
    cases i with
    | connectRes o => exact rfl
    | writeRes r =>
      cases bf with
      | nil => exact rfl
      | cons d rest => cases r <;> rfl
  | arrive next t0 dNext dBuild req => exact hph

/-- Witness for C10: one reachable draining state and one concrete step. -/
theorem c10_draining_never_reconnects_witness :
    (workerStep
      (workerStep initWorker (WorkerIn.connectRes ConnectOutcome.connected))
      (WorkerIn.writeRes none)).phase = Phase.draining ∧
    (workerStep initWorker
      (WorkerIn.connectRes ConnectOutcome.connected)).closed = false :=
  c10_draining_never_reconnects
    (workerStep initWorker (WorkerIn.connectRes ConnectOutcome.connected))
    (workerStep
      (workerStep initWorker (WorkerIn.connectRes ConnectOutcome.connected))
      (WorkerIn.writeRes none))
    (Reach.step initWorker
      (workerStep initWorker (WorkerIn.connectRes ConnectOutcome.connected))
      Reach.init
      (SysStep.worker initWorker (WorkerIn.connectRes ConnectOutcome.connected)))
    rfl
    (SysStep.worker
      (workerStep initWorker (WorkerIn.connectRes ConnectOutcome.connected))
      (WorkerIn.writeRes none))

end TraefikAnalytics
